/-
Verification of the Trading_Hydra safety-and-allocation control loop.

This file shallowly embeds the core of the repository in Lean 4:
  * core/risk.py          : dollars_from_pct, pct_from_dollars
  * core/halt.py          : HaltManager (set_halt, clear_halt, clear_if_expired,
                            is_halted, get_status) over an explicit key store
  * core/health.py        : HealthMonitor (record_price_tick, get_snapshot)
  * services/exitbot.py   : ExitBot.run (kill-switch)
  * services/portfolio.py : PortfolioBot.run (budget allocation)
  * orchestrator.py       : the account-fetch retry loop of _step_initialize
                            and the classification of _step_finalize

Modelling conventions: Python floats are modelled as rationals (ℚ), timestamps
as rationals (seconds), the flat key/value state store as explicit structures
holding `Option` fields (a `none` field is an absent key), and Python
`dict.get(k, default)` as `Option.getD`. Config documents are structures whose
fields are `Option`-valued where the source reads them with a default.
Exceptions are modelled with `Except`. Python's truthiness tests (`x or d`)
are modelled explicitly where the source relies on them. Decimal string
rendering (`:.2f`) is abstracted by an exact rational renderer `fmtQ`; no
claim depends on the digits, only on string prefixes.
-/

import Mathlib

/-! ### String helpers (for reasoning about status strings built by the code) -/

/-- Boolean test that the first character list occurs at the start of the
second one. -/
def listAtStart : List Char → List Char → Bool
  | [], _ => true
  | _ :: _, [] => false
  | a :: as, b :: bs => a == b && listAtStart as bs

/-- `strBeginsWith pre s` holds when the string `s` starts with `pre`. -/
def strBeginsWith (pre s : String) : Bool :=
  listAtStart pre.data s.data

/-- Boolean substring test on character lists: the first list occurs
contiguously somewhere in the second. -/
def hasSub : List Char → List Char → Bool
  | pat, [] => pat.isEmpty
  | pat, c :: rest => listAtStart pat (c :: rest) || hasSub pat rest

/-- The tag of a status string: the part before the first colon. Status
strings in the orchestrator have the form `"<TAG>: <detail>"`. -/
def statusTag (s : String) : String :=
  ⟨s.data.takeWhile (fun c => c != ':')⟩

/-- Exact rational renderer standing in for Python's `f"{x:.2f}"` formatting
in log/reason strings (the decimal rendering itself is abstracted; claims
depend only on the prefix of the reason string, never on the digits). -/
def fmtQ (q : ℚ) : String :=
  toString q.num ++ "/" ++ toString q.den

/-! ### core/risk.py -/

/-- `dollars_from_pct` from `core/risk.py`: `base_amount * (pct / 100.0)`. -/
def dollars_from_pct (base_amount pct : ℚ) : ℚ :=
  base_amount * (pct / 100)

/-- `pct_from_dollars` from `core/risk.py`: returns `0.0` when
`base_amount == 0`, else `(dollars / base_amount) * 100.0`. -/
def pct_from_dollars (base_amount dollars : ℚ) : ℚ :=
  if base_amount = 0 then 0 else dollars / base_amount * 100

/-! ### core/halt.py -/

/-- The four persisted `halt.*` keys of `core/halt.py`. A `none` field means
the key is absent from the store. `expires_at`/`halted_at` are stored by the
source as ISO timestamps and parsed back with `fromisoformat`; they are
modelled directly as rational timestamps (the parse of a string written by
`set_halt` always succeeds in the source). -/
structure HaltStore where
  active : Option Bool
  reason : Option String
  halted_at : Option ℚ
  expires_at : Option ℚ
deriving DecidableEq, Repr

/-- The store with no halt keys present. -/
def emptyHaltStore : HaltStore := ⟨none, none, none, none⟩

/-- `HaltStatus` dataclass from `core/halt.py`. -/
structure HaltStatus where
  active : Bool
  reason : String
  halted_at : Option ℚ
  expires_at : Option ℚ
deriving DecidableEq, Repr

/-- `HaltManager.set_halt`: overwrites all four halt keys; `expires_at` is
`now + cooloff_minutes` (a `timedelta(minutes=...)`, i.e. `60 *` seconds).
The previous store content is irrelevant (every key is overwritten). -/
def set_halt (reason : String) (cooloff_minutes : ℚ) (now : ℚ) : HaltStore :=
  { active := some true
    reason := some reason
    halted_at := some now
    expires_at := some (now + cooloff_minutes * 60) }

/-- `HaltManager.clear_halt`: deletes all four halt keys. -/
def clear_halt (_store : HaltStore) : HaltStore := emptyHaltStore

/-- `HaltManager.clear_if_expired`: if the `halt.expires_at` key is present
and `now > expires` (strict comparison in the source), delete all halt keys
and report `true`; otherwise leave the store unchanged and report `false`. -/
def clear_if_expired (store : HaltStore) (now : ℚ) : Bool × HaltStore :=
  match store.expires_at with
  | none => (false, store)
  | some expires =>
      if now > expires then (true, clear_halt store) else (false, store)

/-- `HaltManager.is_halted`: runs the lazy-expiry check first, then returns
the `halt.active` flag (defaulting to `false`), together with the possibly
cleared store. -/
def is_halted (store : HaltStore) (now : ℚ) : Bool × HaltStore :=
  let s := (clear_if_expired store now).2
  (s.active.getD false, s)

/-- `HaltManager.get_status`: reads the four keys with defaults, without
mutating the store. -/
def get_status (store : HaltStore) : HaltStatus :=
  { active := store.active.getD false
    reason := store.reason.getD ""
    halted_at := store.halted_at
    expires_at := store.expires_at }

/-! ### Configuration documents (`config/bots.yaml`, `config/settings.yaml`)
as read by `core/config.py` consumers. Fields read with `dict.get(k, d)` in
the source are `Option`-valued here and read with `Option.getD d`. -/

/-- The `risk` section of settings: `global_max_daily_loss_pct`
(default `1.0`). -/
structure RiskSettings where
  global_max_daily_loss_pct : Option ℚ
deriving Repr

/-- The `health` section of settings: `max_api_failures_in_window`
(default `5`) and `max_price_staleness_seconds` (default `15`). -/
structure HealthSettings where
  max_api_failures_in_window : Option ℕ
  max_price_staleness_seconds : Option ℚ
deriving Repr

/-- The settings document (`load_settings`). -/
structure Settings where
  risk : RiskSettings
  health : HealthSettings
deriving Repr

/-- The `kill_conditions` section of the `exitbot` config: both toggles
default to `True` in the source. -/
structure KillConditions where
  api_failure_halt : Option Bool
  max_daily_loss_halt : Option Bool
deriving Repr

/-- The `exitbot` section of the bots config: `enabled` (default `True`),
`kill_conditions`, `cooloff_minutes` (default `60`). -/
structure ExitbotCfg where
  enabled : Option Bool
  kill_conditions : KillConditions
  cooloff_minutes : Option ℚ
deriving Repr

/-- The per-bot `risk` subsection of a worker config entry. -/
structure BotRiskCfg where
  max_trades_per_day : Option ℕ
  max_concurrent_positions : Option ℕ
deriving Repr

/-- One entry of the `momentum_bots` list: `bot_id` (default `""`),
`enabled` (default `False`), `risk`. -/
structure MomentumBotCfg where
  bot_id : Option String
  enabled : Option Bool
  risk : BotRiskCfg
deriving Repr

/-- The `optionsbot` / `cryptobot` single-worker sections: `enabled`
(default `False`), `bot_id` (source defaults `"opt_core"` / `"crypto_core"`),
`risk`. -/
structure SingleBotCfg where
  enabled : Option Bool
  bot_id : Option String
  risk : BotRiskCfg
deriving Repr

/-- The `buckets` section of the `portfoliobot` config, percentages of the
daily risk (defaults `50`, `50`, `25`). -/
structure BucketsCfg where
  momentum_bucket_pct_of_daily_risk : Option ℚ
  options_bucket_pct_of_daily_risk : Option ℚ
  crypto_bucket_pct_of_daily_risk : Option ℚ
deriving Repr

/-- The `guardrails` section of the `portfoliobot` config (defaults
`10`, `50`). -/
structure GuardrailsCfg where
  per_bot_min_pct_of_daily_risk : Option ℚ
  per_bot_max_pct_of_daily_risk : Option ℚ
deriving Repr

/-- The `portfoliobot` section: `enabled` (default `True`), buckets,
guardrails. -/
structure PortfolioCfg where
  enabled : Option Bool
  buckets : BucketsCfg
  guardrails : GuardrailsCfg
deriving Repr

/-- The bots config document (`load_bots_config`). -/
structure BotsConfig where
  exitbot : ExitbotCfg
  portfoliobot : PortfolioCfg
  momentum_bots : List MomentumBotCfg
  optionsbot : SingleBotCfg
  cryptobot : SingleBotCfg
deriving Repr

/-! ### core/health.py -/

/-- The persisted `health.*` keys read and written by `HealthMonitor`. -/
structure HealthState where
  api_failure_count : Option ℕ
  last_price_tick : Option ℚ
  last_api_failure : Option ℚ
deriving Repr

/-- `HealthSnapshot` dataclass from `core/health.py`. -/
structure HealthSnapshot where
  ok : Bool
  reason : String
  api_failures : ℕ
  last_price_tick : Option ℚ
  stale_seconds : ℚ
deriving Repr

/-- `HealthMonitor.record_api_failure`: increments the persisted failure
counter and stamps the failure time. -/
def record_api_failure (s : HealthState) (now : ℚ) : HealthState :=
  { s with
    api_failure_count := some ((s.api_failure_count.getD 0) + 1)
    last_api_failure := some now }

/-- `HealthMonitor.record_price_tick`: stamps `health.last_price_tick` and
resets `health.api_failure_count` to zero. -/
def record_price_tick (s : HealthState) (now : ℚ) : HealthState :=
  { s with
    last_price_tick := some now
    api_failure_count := some 0 }

/-- `HealthMonitor.get_snapshot`: reads the thresholds from settings (with
defaults 5 and 15), computes `stale_seconds` as `now - last_price_tick`
(`0.0` when no tick was ever recorded), and flags not-ok when the failure
count reached the maximum, or else when a tick exists and is stale. -/
def get_snapshot (settings : Settings) (s : HealthState) (now : ℚ) :
    HealthSnapshot :=
  let max_failures := settings.health.max_api_failures_in_window.getD 5
  let stale_threshold := settings.health.max_price_staleness_seconds.getD 15
  let api_failures := s.api_failure_count.getD 0
  let stale_seconds : ℚ :=
    match s.last_price_tick with
    | none => 0
    | some t => now - t
  if api_failures ≥ max_failures then
    { ok := false
      reason := "API failures (" ++ toString api_failures ++ ") >= max (" ++
        toString max_failures ++ ")"
      api_failures := api_failures
      last_price_tick := s.last_price_tick
      stale_seconds := stale_seconds }
  else if s.last_price_tick.isSome && decide (stale_seconds > stale_threshold) then
    { ok := false
      reason := "Data stale (" ++ fmtQ stale_seconds ++ "s > " ++
        fmtQ stale_threshold ++ "s)"
      api_failures := api_failures
      last_price_tick := s.last_price_tick
      stale_seconds := stale_seconds }
  else
    { ok := true
      reason := "OK"
      api_failures := api_failures
      last_price_tick := s.last_price_tick
      stale_seconds := stale_seconds }

/-! ### services/exitbot.py -/

/-- Result dictionary of `AlpacaClient.flatten`. -/
structure FlattenResult where
  success : Bool
  error : String
deriving Repr

/-- The brokerage collaborator as the ExitBot sees it: whether credentials
are present and what `flatten()` would report. -/
structure AlpacaCtx where
  has_credentials : Bool
  flatten : FlattenResult
deriving Repr

/-- `ExitBotResult` dataclass from `services/exitbot.py`. -/
structure ExitBotResult where
  should_continue : Bool
  is_halted : Bool
  halt_reason : String
  equity : ℚ
  pnl : ℚ
deriving Repr

/-- `ExitBot.run` from `services/exitbot.py`, as a function of the config
load outcome, the brokerage collaborator, the health snapshot it would read,
the halt store, the current time and the two equity inputs. It returns the
result together with the halt store after the call (the only keys the run
can write are the `halt.*` keys, via `is_halted`'s lazy expiry and
`set_halt`). -/
def exitBotRun (cfgLoad : Except String (BotsConfig × Settings))
    (alpaca : AlpacaCtx) (health : HealthSnapshot)
    (store : HaltStore) (now : ℚ)
    (equity day_start_equity : ℚ) : ExitBotResult × HaltStore :=
  match cfgLoad with
  | .error e =>
      (⟨false, true, "Config load failed: " ++ e, equity, 0⟩, store)
  | .ok (config, settings) =>
    let exitbot_config := config.exitbot
    if !(exitbot_config.enabled.getD true) then
      (⟨true, false, "", equity, equity - day_start_equity⟩, store)
    else
      match is_halted store now with
      | (true, store1) =>
          (⟨false, true, (get_status store1).reason, equity, 0⟩, store1)
      | (false, store1) =>
        let kill_conditions := exitbot_config.kill_conditions
        let cooloff := exitbot_config.cooloff_minutes.getD 60
        if !health.ok && kill_conditions.api_failure_halt.getD true then
          let reason := "HEALTH_FAIL: " ++ health.reason
          let store2 := set_halt reason cooloff now
          let reason2 :=
            if alpaca.has_credentials then
              if !alpaca.flatten.success then
                reason ++ " + FLATTEN_FAILED: " ++ alpaca.flatten.error
              else reason
            else reason
          (⟨false, true, reason2, equity, 0⟩, store2)
        else
          let pnl := equity - day_start_equity
          let max_loss_pct := settings.risk.global_max_daily_loss_pct.getD 1
          let max_loss := dollars_from_pct day_start_equity max_loss_pct
          if pnl ≤ -max_loss ∧ kill_conditions.max_daily_loss_halt.getD true then
            let reason :=
              "MAX_DAILY_LOSS: pnl=" ++ fmtQ pnl ++ " <= -" ++ fmtQ max_loss
            let store2 := set_halt reason cooloff now
            let reason2 :=
              if alpaca.has_credentials then
                if !alpaca.flatten.success then
                  reason ++ " + FLATTEN_FAILED: " ++ alpaca.flatten.error
                else reason
              else reason ++ " + CANNOT_FLATTEN: no credentials"
            (⟨false, true, reason2, equity, pnl⟩, store2)
          else
            (⟨true, false, "", equity, pnl⟩, store1)

/-! ### services/portfolio.py -/

/-- `PortfolioBotResult` dataclass from `services/portfolio.py`. -/
structure PortfolioBotResult where
  budgets_set : Bool
  daily_risk : ℚ
  enabled_bots : List String
  error : String
deriving Repr

/-- The six `set_state` writes done for one worker in `PortfolioBot.run`
(`budgets.<id>.max_daily_loss`, `budgets.<id>.max_open_risk`,
`budgets.<id>.max_trades_per_day`, `budgets.<id>.max_concurrent_positions`,
`bots.<id>.allowed`, `bots.<id>.enabled`). -/
structure BudgetWrite where
  bot_id : String
  max_daily_loss : ℚ
  max_open_risk : ℚ
  max_trades_per_day : ℕ
  max_concurrent_positions : ℕ
  allowed : Bool
  enabled : Bool
deriving Repr

/-- The observable outcome of `PortfolioBot.run`: the returned result and
the per-worker budget writes of each bucket section (momentum loop, options
section, crypto section). -/
structure PortfolioOutcome where
  result : PortfolioBotResult
  momWrites : List BudgetWrite
  optWrite : Option BudgetWrite
  cryWrite : Option BudgetWrite
deriving Repr

/-- `PortfolioBot.run` from `services/portfolio.py`, as a function of the
config load outcome, the stored `day_start_equity` key and the `equity`
argument. The Python read `get_state("day_start_equity", equity) or equity`
falls back to `equity` both when the key is absent and when the stored value
is falsy (`0`). -/
def portfolioRun (cfgLoad : Except String (BotsConfig × Settings))
    (dayStartStored : Option ℚ) (equity : ℚ) : PortfolioOutcome :=
  match cfgLoad with
  | .error e => ⟨⟨false, 0, [], e⟩, [], none, none⟩
  | .ok (config, settings) =>
    let portfolio_config := config.portfoliobot
    if !(portfolio_config.enabled.getD true) then
      ⟨⟨false, 0, [], ""⟩, [], none, none⟩
    else
      let stored := dayStartStored.getD equity
      let day_start_equity := if stored = 0 then equity else stored
      let max_loss_pct := settings.risk.global_max_daily_loss_pct.getD 1
      let daily_risk := dollars_from_pct day_start_equity max_loss_pct
      let buckets := portfolio_config.buckets
      let mom_bucket :=
        daily_risk * (buckets.momentum_bucket_pct_of_daily_risk.getD 50 / 100)
      let opt_bucket :=
        daily_risk * (buckets.options_bucket_pct_of_daily_risk.getD 50 / 100)
      let cry_bucket :=
        daily_risk * (buckets.crypto_bucket_pct_of_daily_risk.getD 25 / 100)
      let guardrails := portfolio_config.guardrails
      let per_min :=
        daily_risk * (guardrails.per_bot_min_pct_of_daily_risk.getD 10 / 100)
      let per_max :=
        daily_risk * (guardrails.per_bot_max_pct_of_daily_risk.getD 50 / 100)
      let momentum_bots := config.momentum_bots
      let enabled_momentum := momentum_bots.filter (fun b => b.enabled.getD false)
      let num_mom : ℕ := max 1 enabled_momentum.length
      let mom_each := max per_min (min per_max (mom_bucket / (num_mom : ℚ)))
      let momWrites := momentum_bots.map (fun b =>
        { bot_id := b.bot_id.getD ""
          max_daily_loss := mom_each
          max_open_risk := mom_each * 2
          max_trades_per_day := b.risk.max_trades_per_day.getD 5
          max_concurrent_positions := b.risk.max_concurrent_positions.getD 2
          allowed := true
          enabled := b.enabled.getD false : BudgetWrite })
      let momEnabledIds := enabled_momentum.map (fun b => b.bot_id.getD "")
      let optPart : Option BudgetWrite × List String :=
        if config.optionsbot.enabled.getD false then
          let bid := config.optionsbot.bot_id.getD "opt_core"
          (some
            { bot_id := bid
              max_daily_loss := opt_bucket
              max_open_risk := opt_bucket * 2
              max_trades_per_day := config.optionsbot.risk.max_trades_per_day.getD 3
              max_concurrent_positions :=
                config.optionsbot.risk.max_concurrent_positions.getD 2
              allowed := true
              enabled := true }, [bid])
        else (none, [])
      let cryPart : Option BudgetWrite × List String :=
        if config.cryptobot.enabled.getD false then
          let bid := config.cryptobot.bot_id.getD "crypto_core"
          (some
            { bot_id := bid
              max_daily_loss := cry_bucket
              max_open_risk := cry_bucket * 2
              max_trades_per_day := config.cryptobot.risk.max_trades_per_day.getD 5
              max_concurrent_positions :=
                config.cryptobot.risk.max_concurrent_positions.getD 3
              allowed := true
              enabled := true }, [bid])
        else (none, [])
      ⟨⟨true, daily_risk, momEnabledIds ++ optPart.2 ++ cryPart.2, ""⟩,
        momWrites, optPart.1, cryPart.1⟩

/-! ### orchestrator.py: `_step_finalize` -/

/-- The error-cause test of `_step_finalize`: some error text contains
`"credentials"`, `"init"` or `"budgets"` after lowercasing. -/
def isInitClassError (e : String) : Bool :=
  hasSub "credentials".data e.toLower.data ||
  hasSub "init".data e.toLower.data ||
  hasSub "budgets".data e.toLower.data

/-- The status/success part of the `LoopResult` built by `_step_finalize`
(summary and timestamp carry no classification content). -/
structure FinalizeOut where
  status : String
  success : Bool
deriving Repr

/-- `_step_finalize` from `orchestrator.py`: classifies the loop outcome
from the halt flag (as reported by `is_halted`), the collected error list
and the list of workers that ran. -/
def stepFinalize (bots_run errors : List String) (halt_reason : String)
    (halted : Bool) : FinalizeOut :=
  let has_errors := !errors.isEmpty
  let bots_ran := !bots_run.isEmpty
  if halted then
    ⟨"HALTED: " ++ halt_reason, true⟩
  else if has_errors && !bots_ran then
    if errors.any isInitClassError then
      ⟨"FAIL_CLOSED: System failed safely without trading", true⟩
    else
      ⟨"ERROR: " ++ String.intercalate "; " errors, false⟩
  else if !bots_ran then
    ⟨"SKIPPED: No bots ran", true⟩
  else if has_errors then
    ⟨"PARTIAL: " ++ toString bots_run.length ++ " bots with " ++
      toString errors.length ++ " errors", false⟩
  else
    ⟨"OK: " ++ toString bots_run.length ++ " bots ran successfully", true⟩

/-- Modelled from the spec (§4.6 step 5) for comparison with `stepFinalize`:
the claimed classification as a function of the halt flag, whether errors
exist, whether any worker ran, and whether some error text indicates an
initialization/credentials/budget cause. The spec leaves the `success` flag
of `SKIPPED` unstated; the source reports `true` there, and this table
records that value. -/
def specClassify (halt_active has_errors workers_ran init_cause : Bool) :
    String × Bool :=
  if halt_active then ("HALTED", true)
  else if has_errors && !workers_ran && init_cause then ("FAIL_CLOSED", true)
  else if has_errors && !workers_ran then ("ERROR", false)
  else if !has_errors && !workers_ran then ("SKIPPED", true)
  else if workers_ran && has_errors then ("PARTIAL", false)
  else ("OK", true)

/-! ### orchestrator.py: the account-fetch retry of `_step_initialize` -/

/-- The account document returned by `AlpacaClient.get_account`, restricted
to the fields `_step_initialize` reads. -/
structure Account where
  equity : ℚ
  status : String
deriving Repr

/-- The observable outcome of the fetch-with-retry block of
`_step_initialize`: the fetched equity or the error string it fails with,
the backoff waits slept (in seconds, in order), and the attempt indices at
which a fetch was issued. -/
structure RetryOutcome where
  result : Except String ℚ
  waits : List ℕ
  tried : List ℕ
deriving Repr

/-- The `for attempt in range(max_retries)` loop of `_step_initialize`,
recursing over the list of remaining attempt indices. A fetched account with
non-positive equity fails hard (no further attempts); a raising fetch waits
`2 ** attempt` seconds and retries while attempts remain, and otherwise
fails with the last error, labelled with the 1-based attempt number. -/
def fetchLoop (fetch : ℕ → Except String Account) :
    List ℕ → RetryOutcome
  | [] => ⟨.error "", [], []⟩
  | a :: rest =>
    match fetch a with
    | .ok account =>
        if account.equity ≤ 0 then
          ⟨.error ("Invalid account equity: " ++ fmtQ account.equity), [], [a]⟩
        else
          ⟨.ok account.equity, [], [a]⟩
    | .error e =>
        let msg := "Failed to fetch account (attempt " ++ toString (a + 1) ++
          "): " ++ e
        match rest with
        | [] => ⟨.error msg, [], [a]⟩
        | _ :: _ =>
            let o := fetchLoop fetch rest
            ⟨o.result, 2 ^ a :: o.waits, a :: o.tried⟩

/-- The retry block with the source's `max_retries = 3`, i.e. attempt
indices `0, 1, 2`. -/
def stepInitFetch (fetch : ℕ → Except String Account) : RetryOutcome :=
  fetchLoop fetch [0, 1, 2]

/-! ### Shared concrete fixtures for witnesses -/

/-- A bot `risk` config section with nothing set (all defaults apply). -/
def emptyBotRisk : BotRiskCfg := ⟨none, none⟩

/-- An exitbot config with nothing set: enabled, both kill conditions on,
60-minute cooloff (all by default). -/
def defaultExitbotCfg : ExitbotCfg := ⟨none, ⟨none, none⟩, none⟩

/-- A portfoliobot config with nothing set: enabled, bucket percentages
50/50/25, guardrails 10/50 (all by default). -/
def defaultPortfolioCfg : PortfolioCfg := ⟨none, ⟨none, none, none⟩, ⟨none, none⟩⟩

/-- A bots config with all sections at their defaults and no workers. -/
def cfgDefault : BotsConfig :=
  ⟨defaultExitbotCfg, defaultPortfolioCfg, [], ⟨none, none, emptyBotRisk⟩,
    ⟨none, none, emptyBotRisk⟩⟩

/-- Settings with `global_max_daily_loss_pct = 2` and default health bounds. -/
def settingsPct2 : Settings := ⟨⟨some 2⟩, ⟨none, none⟩⟩

/-- Settings with `global_max_daily_loss_pct = 1` and default health bounds. -/
def settingsPct1 : Settings := ⟨⟨some 1⟩, ⟨none, none⟩⟩

/-- A healthy health snapshot. -/
def healthOkSnap : HealthSnapshot := ⟨true, "OK", 0, none, 0⟩

/-- An unhealthy health snapshot (failure threshold exceeded). -/
def healthBadSnap : HealthSnapshot := ⟨false, "API failures (9) >= max (5)", 9, none, 0⟩

/-- A brokerage context without credentials. -/
def alpacaNoCreds : AlpacaCtx := ⟨false, ⟨true, ""⟩⟩

/-! ### Spec-side allocation expressions and witness configs -/

/-- A bucket's (or guardrail's) share of the daily risk: `pct` percent of
`daily_risk` (spec §4.4 steps 4-5). -/
def bucketShare (daily_risk pct : ℚ) : ℚ :=
  daily_risk * (pct / 100)

/-- Clamping a share into `[lo, hi]`, as the source computes it:
`max(lo, min(hi, x))`. -/
def clampAlloc (lo hi x : ℚ) : ℚ :=
  max lo (min hi x)

/-- A bots config with two enabled momentum workers and all other sections
at their defaults. -/
def cfgMom2 : BotsConfig :=
  ⟨defaultExitbotCfg, defaultPortfolioCfg,
    [⟨some "m1", some true, emptyBotRisk⟩, ⟨some "m2", some true, emptyBotRisk⟩],
    ⟨none, none, emptyBotRisk⟩, ⟨none, none, emptyBotRisk⟩⟩

/-- The budget write `PortfolioBot.run` performs for worker `m1` with
`daily_risk = 100`, two enabled momentum workers and default buckets and
guardrails: an even split of `25`, inside `[10, 50]`. -/
def c5ExpectedWrite : BudgetWrite := ⟨"m1", 25, 50, 5, 2, true, true⟩

/-- A bots config with six enabled momentum workers and all other sections
at their defaults. -/
def cfgMom6 : BotsConfig :=
  ⟨defaultExitbotCfg, defaultPortfolioCfg,
    [⟨some "m1", some true, emptyBotRisk⟩, ⟨some "m2", some true, emptyBotRisk⟩,
      ⟨some "m3", some true, emptyBotRisk⟩, ⟨some "m4", some true, emptyBotRisk⟩,
      ⟨some "m5", some true, emptyBotRisk⟩, ⟨some "m6", some true, emptyBotRisk⟩],
    ⟨none, none, emptyBotRisk⟩, ⟨none, none, emptyBotRisk⟩⟩

/-- As `cfgMom6`, with the options and crypto workers enabled too. -/
def cfgFull : BotsConfig :=
  ⟨defaultExitbotCfg, defaultPortfolioCfg,
    [⟨some "m1", some true, emptyBotRisk⟩, ⟨some "m2", some true, emptyBotRisk⟩,
      ⟨some "m3", some true, emptyBotRisk⟩, ⟨some "m4", some true, emptyBotRisk⟩,
      ⟨some "m5", some true, emptyBotRisk⟩, ⟨some "m6", some true, emptyBotRisk⟩],
    ⟨some true, none, emptyBotRisk⟩, ⟨some true, none, emptyBotRisk⟩⟩

/-- The budget write `PortfolioBot.run` performs for the options worker
under `cfgFull` with `daily_risk = 100`: the full options bucket `50`. -/
def c4OptWrite : BudgetWrite := ⟨"opt_core", 50, 100, 3, 2, true, true⟩

/-- The budget write `PortfolioBot.run` performs for the crypto worker
under `cfgFull` with `daily_risk = 100`: the full crypto bucket `25`. -/
def c4CryWrite : BudgetWrite := ⟨"crypto_core", 25, 50, 5, 3, true, true⟩

/-! ### Status-string tag lemmas -/

/-- Tag of a `HALTED` status string. -/
theorem statusTag_halted (r : String) : statusTag ("HALTED: " ++ r) = "HALTED" := rfl

/-- Tag of an `ERROR` status string. -/
theorem statusTag_error (r : String) : statusTag ("ERROR: " ++ r) = "ERROR" := rfl

/-- Tag of a `PARTIAL` status string. -/
theorem statusTag_partialRun (a b : String) :
    statusTag ("PARTIAL: " ++ a ++ " bots with " ++ b ++ " errors") = "PARTIAL" := rfl

/-- Tag of an `OK` status string. -/
theorem statusTag_ok (a : String) :
    statusTag ("OK: " ++ a ++ " bots ran successfully") = "OK" := rfl

/-! ### Claim C8: percentage/dollar round trip -/

/-- C8 (counterexample): the claim quantifies over `base ≥ 0`, but at
`base = 0` the round trip collapses: with `pct = 50 ∈ [0, 100]` and
`base = 0 ≥ 0`, `dollars_from_pct 0 50 = 0` and `pct_from_dollars 0 0 = 0`,
so the round trip returns `0`, not `50`. -/
theorem c8_counterexample :
    (0 : ℚ) ≤ 0 ∧ (0 : ℚ) ≤ 50 ∧ (50 : ℚ) ≤ 100 ∧
    pct_from_dollars 0 (dollars_from_pct 0 50) = 0 ∧ (0 : ℚ) ≠ 50 := by
  refine ⟨le_refl 0, by norm_num, by norm_num, ?_, by norm_num⟩
  simp [pct_from_dollars, dollars_from_pct]

/-- C8 (amended): for all `pct ∈ [0, 100]` and `base > 0` (strictly positive
rather than the claimed `base ≥ 0`; at `base = 0` the round trip returns `0`),
`pct_from_dollars base (dollars_from_pct base pct) = pct` (exactly, in the
rational model), and `dollars_from_pct base 0 = 0`. -/
theorem c8_roundtrip (base pct : ℚ) (hbase : 0 < base)
    (h0 : 0 ≤ pct) (h100 : pct ≤ 100) :
    pct_from_dollars base (dollars_from_pct base pct) = pct ∧
    dollars_from_pct base 0 = 0 := by
  constructor
  · have hne : base ≠ 0 := ne_of_gt hbase
    simp only [pct_from_dollars, dollars_from_pct, if_neg hne]
    field_simp
    ring
  · simp [dollars_from_pct]

/-- C8 (witness): the amended round trip at `base = 200`, `pct = 50`. -/
theorem c8_witness :
    pct_from_dollars 200 (dollars_from_pct 200 50) = 50 ∧
    dollars_from_pct 200 0 = 0 :=
  c8_roundtrip 200 50 (by norm_num) (by norm_num) (by norm_num)

/-! ### Claim C3: lazy halt expiry -/

/-- C3 (counterexample): the claim says a call at `now ≥ expires_at` already
observes the halt as cleared, but `clear_if_expired` uses the strict
comparison `now > expires`. For the halt set at time `0` with a 60-minute
cooloff, `expires_at = 3600`; calling `is_halted` exactly at `now = 3600`
still returns `true` and leaves the halt keys in place. -/
theorem c3_counterexample :
    (set_halt "R" 60 0).expires_at = some 3600 ∧
    (is_halted (set_halt "R" 60 0) 3600).1 = true ∧
    (is_halted (set_halt "R" 60 0) 3600).2 ≠ emptyHaltStore := by
  have hlt : ¬ ((60 : ℚ) * 60 < 3600) := by norm_num
  refine ⟨by norm_num [set_halt], ?_, ?_⟩
  · simp [is_halted, clear_if_expired, set_halt, hlt]
  · simp [is_halted, clear_if_expired, set_halt, hlt, emptyHaltStore]

/-- C3 (amended): for every halt record carrying an expiry `e`, any
`is_halted` call at a time strictly past `e` (`now > e`, the source's
comparison, rather than the claimed `now ≥ e`) returns `false` and deletes
all halt keys; afterwards every further `is_halted` call, at any time,
returns `false` on the emptied store and leaves it empty. -/
theorem c3_lazy_expiry (store : HaltStore) (e now : ℚ)
    (h1 : store.expires_at = some e) (h2 : e < now) :
    is_halted store now = (false, emptyHaltStore) ∧
    ∀ now2 : ℚ, is_halted emptyHaltStore now2 = (false, emptyHaltStore) := by
  constructor
  · simp [is_halted, clear_if_expired, h1, h2, clear_halt, emptyHaltStore]
  · intro now2
    simp [is_halted, clear_if_expired, emptyHaltStore]

/-- C3 (witness): the amended statement at the concrete halt set at time `0`
with a 60-minute cooloff (`expires_at = 3600`), observed at `now = 3601`. -/
theorem c3_witness :
    is_halted (set_halt "R" 60 0) 3601 = (false, emptyHaltStore) ∧
    ∀ now2 : ℚ, is_halted emptyHaltStore now2 = (false, emptyHaltStore) :=
  c3_lazy_expiry (set_halt "R" 60 0) 3600 3601 (by norm_num [set_halt]) (by norm_num)

/-! ### Claim C6: health snapshot semantics -/

/-- C6: for every persisted failure count and last-tick state (and any
configured staleness bound that is nonnegative, as the configured threshold
is), `get_snapshot` reports `ok` exactly when the failure count is below the
configured maximum AND the staleness does not exceed the staleness bound,
with staleness `0` when no tick was ever recorded; with failure count `5`
and maximum `5` it reports not-ok; and immediately after a single
`record_price_tick` the failure count is `0` and (for a positive failure
maximum) the snapshot is ok. -/
theorem c6_snapshot (settings : Settings) (s : HealthState) (now : ℚ)
    (hthr : 0 ≤ settings.health.max_price_staleness_seconds.getD 15) :
    ((get_snapshot settings s now).ok = true ↔
      (s.api_failure_count.getD 0 <
          settings.health.max_api_failures_in_window.getD 5 ∧
        (get_snapshot settings s now).stale_seconds ≤
          settings.health.max_price_staleness_seconds.getD 15)) ∧
    (s.last_price_tick = none → (get_snapshot settings s now).stale_seconds = 0) ∧
    (settings.health.max_api_failures_in_window.getD 5 = 5 →
      s.api_failure_count = some 5 → (get_snapshot settings s now).ok = false) ∧
    (0 < settings.health.max_api_failures_in_window.getD 5 →
      (get_snapshot settings (record_price_tick s now) now).ok = true ∧
      (record_price_tick s now).api_failure_count = some 0) := by
  set maxF := settings.health.max_api_failures_in_window.getD 5 with hmaxF
  set thr := settings.health.max_price_staleness_seconds.getD 15 with hthrdef
  refine ⟨?_, ?_, ?_, ?_⟩
  · by_cases hf : s.api_failure_count.getD 0 ≥ maxF
    · simp only [get_snapshot, ← hmaxF, ← hthrdef, if_pos hf]
      constructor
      · intro h; exact absurd h (by simp)
      · rintro ⟨hlt, -⟩; omega
    · push_neg at hf
      cases htick : s.last_price_tick with
      | none =>
          simp only [get_snapshot, ← hmaxF, ← hthrdef, htick,
            if_neg (by omega : ¬ s.api_failure_count.getD 0 ≥ maxF)]
          simp [hf, hthr]
      | some t =>
          by_cases hstale : now - t > thr
          · simp only [get_snapshot, ← hmaxF, ← hthrdef, htick,
              if_neg (by omega : ¬ s.api_failure_count.getD 0 ≥ maxF)]
            simp [hstale, not_le.mpr hstale]
          · simp only [get_snapshot, ← hmaxF, ← hthrdef, htick,
              if_neg (by omega : ¬ s.api_failure_count.getD 0 ≥ maxF)]
            simp [hstale, hf, not_lt.mp hstale]
  · intro htick
    by_cases hf : s.api_failure_count.getD 0 ≥ maxF <;>
      simp [get_snapshot, ← hmaxF, ← hthrdef, htick, hf]
  · intro h5 hcount
    have : s.api_failure_count.getD 0 ≥ maxF := by
      rw [hcount, h5]; simp
    simp [get_snapshot, ← hmaxF, this]
  · intro hpos
    constructor
    · have hf : ¬ ((record_price_tick s now).api_failure_count.getD 0 ≥ maxF) := by
        simp [record_price_tick]; omega
      have hst : ¬ (now - now > thr) := by
        simp only [sub_self]
        exact not_lt.mpr hthr
      have hm0 : ¬ (maxF = 0) := by omega
      have ht0 : ¬ (thr < 0) := not_lt.mpr hthr
      simp [get_snapshot, ← hmaxF, ← hthrdef, record_price_tick, hf, hst, hm0, ht0]
    · simp [record_price_tick]

/-- C6 (witness): the snapshot law at the default thresholds (maximum `5`
failures, staleness bound `15`), the stored failure count `5`, no recorded
tick, observed at time `0`. -/
theorem c6_witness :
    ((get_snapshot ⟨⟨none⟩, ⟨none, none⟩⟩ ⟨some 5, none, none⟩ 0).ok = true ↔
      ((⟨some 5, none, none⟩ : HealthState).api_failure_count.getD 0 < 5 ∧
        (get_snapshot ⟨⟨none⟩, ⟨none, none⟩⟩ ⟨some 5, none, none⟩ 0).stale_seconds ≤ 15)) ∧
    (get_snapshot ⟨⟨none⟩, ⟨none, none⟩⟩ ⟨some 5, none, none⟩ 0).ok = false ∧
    (get_snapshot ⟨⟨none⟩, ⟨none, none⟩⟩
        (record_price_tick ⟨some 5, none, none⟩ 0) 0).ok = true ∧
    (record_price_tick (⟨some 5, none, none⟩ : HealthState) 0).api_failure_count = some 0 := by
  have h := c6_snapshot ⟨⟨none⟩, ⟨none, none⟩⟩ ⟨some 5, none, none⟩ 0 (by norm_num)
  exact ⟨h.1, h.2.2.1 rfl rfl, (h.2.2.2 (by norm_num)).1, (h.2.2.2 (by norm_num)).2⟩

/-! ### Claim C2: loop-outcome classification -/

/-- C2: for every combination of halt flag, error list and workers-run list,
the tag and success flag of `_step_finalize`'s result are exactly the
spec's classification table: `HALTED`/`success` under a halt; `FAIL_CLOSED`/
`success` for errors with no worker run and an init-class cause; `ERROR`/
failure for errors with no worker run otherwise; `SKIPPED` when nothing ran
and nothing failed; `PARTIAL`/failure for runs with errors; `OK`/`success`
for clean runs. -/
theorem c2_finalize_classification (halted : Bool)
    (errors bots_run : List String) (halt_reason : String) :
    (statusTag (stepFinalize bots_run errors halt_reason halted).status,
      (stepFinalize bots_run errors halt_reason halted).success)
    = specClassify halted (!errors.isEmpty) (!bots_run.isEmpty)
        (errors.any isInitClassError) := by
  cases halted with
  | true =>
      simp [stepFinalize, specClassify, statusTag_halted]
  | false =>
      rcases errors with _ | ⟨e, es⟩
      · rcases bots_run with _ | ⟨b, bs⟩
        · simp [stepFinalize, specClassify]; rfl
        · simp [stepFinalize, specClassify, statusTag_ok]
      · rcases bots_run with _ | ⟨b, bs⟩
        · by_cases hinit : (e :: es).any isInitClassError
          · simp [stepFinalize, specClassify, hinit]; rfl
          · simp [stepFinalize, specClassify, hinit, statusTag_error]
        · simp [stepFinalize, specClassify, statusTag_partialRun]

/-! ### Claim C7: account-fetch retry with backoff -/

/-- C7 (counterexample): even on the input that maximises retries (every
attempt raises), the loop issues exactly 3 attempts but sleeps only twice,
1s then 2s; no 4s wait ever occurs, against the claimed backoff waits of
1s, 2s, 4s between attempts. -/
theorem c7_counterexample :
    (stepInitFetch (fun _ => .error "boom")).tried.length = 3 ∧
    (stepInitFetch (fun _ => .error "boom")).waits = [1, 2] ∧
    4 ∉ (stepInitFetch (fun _ => .error "boom")).waits := by
  refine ⟨rfl, rfl, ?_⟩
  decide

/-- C7 (amended): for every sequence of account-fetch outcomes, the fetch is
attempted at most 3 times with exponential backoff waits of 1s then 2s
between attempts (at most two waits occur, so the 4s term of the `2^attempt`
schedule is never reached); if all attempts raise, the block fails reporting
the last underlying error; and a fetched non-positive equity is a hard
failure with no further attempts and no waits. -/
theorem c7_fetch_retry (fetch : ℕ → Except String Account) :
    (stepInitFetch fetch).tried.length ≤ 3 ∧
    ((stepInitFetch fetch).waits = [] ∨ (stepInitFetch fetch).waits = [1] ∨
      (stepInitFetch fetch).waits = [1, 2]) ∧
    (∀ e0 e1 e2, fetch 0 = .error e0 → fetch 1 = .error e1 →
      fetch 2 = .error e2 →
      (stepInitFetch fetch).result =
        .error ("Failed to fetch account (attempt " ++ toString 3 ++ "): " ++ e2) ∧
      (stepInitFetch fetch).waits = [1, 2] ∧
      (stepInitFetch fetch).tried = [0, 1, 2]) ∧
    (∀ account : Account, fetch 0 = .ok account → account.equity ≤ 0 →
      (stepInitFetch fetch).result =
        .error ("Invalid account equity: " ++ fmtQ account.equity) ∧
      (stepInitFetch fetch).waits = [] ∧ (stepInitFetch fetch).tried = [0]) := by
  refine ⟨?_, ?_, ?_, ?_⟩
  · rcases h0 : fetch 0 with e0 | a0
    · rcases h1 : fetch 1 with e1 | a1
      · rcases h2 : fetch 2 with e2 | a2
        · simp [stepInitFetch, fetchLoop, h0, h1, h2]
        · by_cases hq : a2.equity ≤ 0 <;>
            simp [stepInitFetch, fetchLoop, h0, h1, h2, hq]
      · by_cases hq : a1.equity ≤ 0 <;> simp [stepInitFetch, fetchLoop, h0, h1, hq]
    · by_cases hq : a0.equity ≤ 0 <;> simp [stepInitFetch, fetchLoop, h0, hq]
  · rcases h0 : fetch 0 with e0 | a0
    · rcases h1 : fetch 1 with e1 | a1
      · rcases h2 : fetch 2 with e2 | a2
        · simp [stepInitFetch, fetchLoop, h0, h1, h2]
        · by_cases hq : a2.equity ≤ 0 <;>
            simp [stepInitFetch, fetchLoop, h0, h1, h2, hq]
      · by_cases hq : a1.equity ≤ 0 <;> simp [stepInitFetch, fetchLoop, h0, h1, hq]
    · by_cases hq : a0.equity ≤ 0 <;> simp [stepInitFetch, fetchLoop, h0, hq]
  · intro e0 e1 e2 h0 h1 h2
    simp [stepInitFetch, fetchLoop, h0, h1, h2]
  · intro account h0 hneg
    simp [stepInitFetch, fetchLoop, h0, if_pos hneg]

/-- C7 (witness): the amended statement at the all-raising fetch and at a
fetch returning equity `-5` on the first attempt. -/
theorem c7_witness :
    ((stepInitFetch (fun _ => .error "boom")).result =
        .error ("Failed to fetch account (attempt " ++ toString 3 ++ "): " ++ "boom") ∧
      (stepInitFetch (fun _ => .error "boom")).waits = [1, 2] ∧
      (stepInitFetch (fun _ => .error "boom")).tried = [0, 1, 2]) ∧
    ((stepInitFetch (fun _ => .ok ⟨-5, "ACTIVE"⟩)).result =
        .error ("Invalid account equity: " ++ fmtQ (-5)) ∧
      (stepInitFetch (fun _ => .ok ⟨-5, "ACTIVE"⟩)).waits = [] ∧
      (stepInitFetch (fun _ => .ok ⟨-5, "ACTIVE"⟩)).tried = [0]) :=
  ⟨(c7_fetch_retry (fun _ => .error "boom")).2.2.1 "boom" "boom" "boom" rfl rfl rfl,
    (c7_fetch_retry (fun _ => .ok ⟨-5, "ACTIVE"⟩)).2.2.2 ⟨-5, "ACTIVE"⟩ rfl
      (by norm_num)⟩

/-! ### Claim C1: the MAX_DAILY_LOSS kill condition -/

/-- Any reason string built by the max-daily-loss branch starts with
`"MAX_DAILY_LOSS:"`, whatever the rendered numbers and flatten suffix are. -/
theorem mdl_reason_tag (a b c : String) :
    strBeginsWith "MAX_DAILY_LOSS:" ("MAX_DAILY_LOSS: pnl=" ++ a ++ b ++ c) = true := rfl

/-- As `mdl_reason_tag`, with the two appended flatten-failure suffix parts. -/
theorem mdl_reason_tag_suffix (a b c d e : String) :
    strBeginsWith "MAX_DAILY_LOSS:"
      ("MAX_DAILY_LOSS: pnl=" ++ a ++ b ++ c ++ d ++ e) = true := rfl

/-- As `mdl_reason_tag`, with one appended suffix part. -/
theorem mdl_reason_tag_cannot (a b c d : String) :
    strBeginsWith "MAX_DAILY_LOSS:"
      ("MAX_DAILY_LOSS: pnl=" ++ a ++ b ++ c ++ d) = true := rfl

/-- C1: with the loss kill-condition enabled, the Kill-Switch enabled, no
pre-existing halt and a healthy snapshot, `ExitBot.run` computes
`pnl = equity - day_start_equity` and trips a halt whose reason starts with
`MAX_DAILY_LOSS:` exactly when `pnl ≤ -(day_start_equity *
max_daily_loss_pct / 100)` — the threshold computed from
`day_start_equity`, not current equity. -/
theorem c1_max_daily_loss (config : BotsConfig) (settings : Settings)
    (alpaca : AlpacaCtx) (health : HealthSnapshot) (now equity day_start : ℚ)
    (hen : config.exitbot.enabled.getD true = true)
    (hkill : config.exitbot.kill_conditions.max_daily_loss_halt.getD true = true)
    (hok : health.ok = true) :
    (equity - day_start ≤
        -(day_start * (settings.risk.global_max_daily_loss_pct.getD 1) / 100) →
      (exitBotRun (.ok (config, settings)) alpaca health emptyHaltStore now
          equity day_start).1.is_halted = true ∧
      strBeginsWith "MAX_DAILY_LOSS:"
        (exitBotRun (.ok (config, settings)) alpaca health emptyHaltStore now
          equity day_start).1.halt_reason = true ∧
      (exitBotRun (.ok (config, settings)) alpaca health emptyHaltStore now
          equity day_start).1.pnl = equity - day_start) ∧
    (¬ (equity - day_start ≤
        -(day_start * (settings.risk.global_max_daily_loss_pct.getD 1) / 100)) →
      (exitBotRun (.ok (config, settings)) alpaca health emptyHaltStore now
          equity day_start).1.is_halted = false ∧
      (exitBotRun (.ok (config, settings)) alpaca health emptyHaltStore now
          equity day_start).1.should_continue = true ∧
      (exitBotRun (.ok (config, settings)) alpaca health emptyHaltStore now
          equity day_start).1.pnl = equity - day_start) := by
  have hthr :
      -(day_start * (settings.risk.global_max_daily_loss_pct.getD 1) / 100) =
      -(dollars_from_pct day_start (settings.risk.global_max_daily_loss_pct.getD 1)) := by
    unfold dollars_from_pct; ring_nf
  have hunhalted : is_halted emptyHaltStore now = (false, emptyHaltStore) := rfl
  constructor
  · intro htrip
    rw [hthr] at htrip
    simp only [exitBotRun, hen, Bool.not_true, Bool.false_eq_true, if_false,
      hunhalted, hok, Bool.not_true, Bool.false_and, Bool.false_eq_true,
      if_false, if_pos (And.intro htrip hkill)]
    rcases hc : alpaca.has_credentials
    · simp [hc, mdl_reason_tag_cannot]
    · rcases hs : alpaca.flatten.success
      · simp [hc, hs, mdl_reason_tag_suffix]
      · simp [hc, hs, mdl_reason_tag]
  · intro hnotrip
    rw [hthr] at hnotrip
    have hcond : ¬ (equity - day_start ≤
        -(dollars_from_pct day_start (settings.risk.global_max_daily_loss_pct.getD 1)) ∧
        config.exitbot.kill_conditions.max_daily_loss_halt.getD true = true) := by
      intro hc; exact hnotrip hc.1
    simp only [exitBotRun, hen, Bool.not_true, Bool.false_eq_true, if_false,
      hunhalted, hok, Bool.not_true, Bool.false_and, Bool.false_eq_true,
      if_false, if_neg hcond]
    exact ⟨trivial, trivial, trivial⟩

/-- C1 (witness): with `day_start_equity = 10000` and `max_loss_pct = 2`
(threshold 200), a pnl of `-250` (equity `9750`) trips the MAX_DAILY_LOSS
halt, and a pnl of `-150` (equity `9850`) does not. -/
theorem c1_witness :
    ((exitBotRun (.ok (cfgDefault, settingsPct2)) alpacaNoCreds healthOkSnap
        emptyHaltStore 0 9750 10000).1.is_halted = true ∧
      strBeginsWith "MAX_DAILY_LOSS:"
        (exitBotRun (.ok (cfgDefault, settingsPct2)) alpacaNoCreds healthOkSnap
          emptyHaltStore 0 9750 10000).1.halt_reason = true ∧
      (exitBotRun (.ok (cfgDefault, settingsPct2)) alpacaNoCreds healthOkSnap
        emptyHaltStore 0 9750 10000).1.pnl = 9750 - 10000) ∧
    ((exitBotRun (.ok (cfgDefault, settingsPct2)) alpacaNoCreds healthOkSnap
        emptyHaltStore 0 9850 10000).1.is_halted = false ∧
      (exitBotRun (.ok (cfgDefault, settingsPct2)) alpacaNoCreds healthOkSnap
        emptyHaltStore 0 9850 10000).1.should_continue = true ∧
      (exitBotRun (.ok (cfgDefault, settingsPct2)) alpacaNoCreds healthOkSnap
        emptyHaltStore 0 9850 10000).1.pnl = 9850 - 10000) :=
  ⟨(c1_max_daily_loss cfgDefault settingsPct2 alpacaNoCreds healthOkSnap
      0 9750 10000 rfl rfl rfl).1 (by norm_num [settingsPct2]),
    (c1_max_daily_loss cfgDefault settingsPct2 alpacaNoCreds healthOkSnap
      0 9850 10000 rfl rfl rfl).2 (by norm_num [settingsPct2])⟩

/-! ### Claim C9: config-load failure halts the loop without persisting a halt -/

/-- C9: when loading configuration raises, `ExitBot.run` returns
`should_continue = false`, `is_halted = true` with reason
`Config load failed: <error>`, yet leaves the halt store exactly as it was
(`set_halt` is never called), so `is_halted` on a store with no pre-existing
halt still reports `false` afterwards. -/
theorem c9_config_load_failure (e : String) (alpaca : AlpacaCtx)
    (health : HealthSnapshot) (store : HaltStore)
    (now now2 equity day_start : ℚ) :
    exitBotRun (.error e) alpaca health store now equity day_start =
      (⟨false, true, "Config load failed: " ++ e, equity, 0⟩, store) ∧
    (is_halted emptyHaltStore now2).1 = false :=
  ⟨rfl, rfl⟩

/-! ### Claim C10: pnl is reported as 0 in the non-MAX_DAILY_LOSS halt branches -/

/-- C10: every `ExitBot.run` branch that returns `is_halted = true` other
than the MAX_DAILY_LOSS one — config-load failure, already-halted, and the
health-failure halt — reports `pnl = 0` rather than
`equity - day_start_equity`, whatever the equities are. -/
theorem c10_halt_branches_zero_pnl (config : BotsConfig) (settings : Settings)
    (alpaca : AlpacaCtx) (health : HealthSnapshot) (store : HaltStore)
    (now equity day_start : ℚ) :
    (∀ e : String,
      (exitBotRun (.error e) alpaca health store now equity day_start).1.pnl = 0 ∧
      (exitBotRun (.error e) alpaca health store now equity day_start).1.is_halted
        = true) ∧
    (config.exitbot.enabled.getD true = true →
      (is_halted store now).1 = true →
      (exitBotRun (.ok (config, settings)) alpaca health store now equity
          day_start).1.pnl = 0 ∧
      (exitBotRun (.ok (config, settings)) alpaca health store now equity
          day_start).1.is_halted = true) ∧
    (config.exitbot.enabled.getD true = true →
      (is_halted store now).1 = false →
      health.ok = false →
      config.exitbot.kill_conditions.api_failure_halt.getD true = true →
      (exitBotRun (.ok (config, settings)) alpaca health store now equity
          day_start).1.pnl = 0 ∧
      (exitBotRun (.ok (config, settings)) alpaca health store now equity
          day_start).1.is_halted = true) := by
  refine ⟨fun e => ⟨rfl, rfl⟩, ?_, ?_⟩
  · intro hen hh
    rcases hsc : is_halted store now with ⟨b, s1⟩
    rw [hsc] at hh; simp only at hh; subst hh
    simp [exitBotRun, hen, hsc]
  · intro hen hh hok hkc
    rcases hsc : is_halted store now with ⟨b, s1⟩
    rw [hsc] at hh; simp only at hh; subst hh
    simp only [exitBotRun, hen, Bool.not_true, Bool.false_eq_true, if_false, hsc,
      hok, Bool.not_false, hkc, Bool.true_and, if_true]
    rcases hc : alpaca.has_credentials <;>
      rcases hs : alpaca.flatten.success <;> simp [hc, hs]

/-- C10 (witness): all three non-MAX_DAILY_LOSS halting branches at
`equity = 9000`, `day_start_equity = 10000` (so `equity - day_start_equity =
-1000 ≠ 0`): a config-load failure, a pre-existing halt (set at time 0,
observed at time 10), and a health-failure halt — each reports `pnl = 0`
and `is_halted = true`. -/
theorem c10_witness :
    ((exitBotRun (.error "boom") alpacaNoCreds healthOkSnap emptyHaltStore 0
        9000 10000).1.pnl = 0 ∧
      (exitBotRun (.error "boom") alpacaNoCreds healthOkSnap emptyHaltStore 0
        9000 10000).1.is_halted = true) ∧
    ((exitBotRun (.ok (cfgDefault, settingsPct2)) alpacaNoCreds healthOkSnap
        (set_halt "R" 60 0) 10 9000 10000).1.pnl = 0 ∧
      (exitBotRun (.ok (cfgDefault, settingsPct2)) alpacaNoCreds healthOkSnap
        (set_halt "R" 60 0) 10 9000 10000).1.is_halted = true) ∧
    ((exitBotRun (.ok (cfgDefault, settingsPct2)) alpacaNoCreds healthBadSnap
        emptyHaltStore 0 9000 10000).1.pnl = 0 ∧
      (exitBotRun (.ok (cfgDefault, settingsPct2)) alpacaNoCreds healthBadSnap
        emptyHaltStore 0 9000 10000).1.is_halted = true) :=
  ⟨(c10_halt_branches_zero_pnl cfgDefault settingsPct2 alpacaNoCreds
      healthOkSnap emptyHaltStore 0 9000 10000).1 "boom",
    (c10_halt_branches_zero_pnl cfgDefault settingsPct2 alpacaNoCreds
      healthOkSnap (set_halt "R" 60 0) 10 9000 10000).2.1 rfl
      (by
        have hlt : ¬ ((60 : ℚ) * 60 < 10) := by norm_num
        simp [is_halted, clear_if_expired, set_halt, hlt]),
    (c10_halt_branches_zero_pnl cfgDefault settingsPct2 alpacaNoCreds
      healthBadSnap emptyHaltStore 0 9000 10000).2.2 rfl rfl rfl rfl⟩

/-! ### Claims C5 and C4: budget allocation -/

/-- C5: in every successful allocation with at least one enabled momentum
worker, each momentum worker's persisted `max_daily_loss` equals the even
split of the momentum bucket over the enabled momentum workers, clamped into
`[per_bot_min_pct, per_bot_max_pct]` of the total daily risk; whenever the
guardrail bounds are ordered (`lo ≤ hi`) the persisted allocation lies in
`[lo, hi]` regardless of what the equal split produced. -/
theorem c5_momentum_allocation (config : BotsConfig) (settings : Settings)
    (dayStart : Option ℚ) (equity : ℚ)
    (hen : config.portfoliobot.enabled.getD true = true)
    (hcount :
      1 ≤ (config.momentum_bots.filter (fun b => b.enabled.getD false)).length) :
    ∀ w ∈ (portfolioRun (.ok (config, settings)) dayStart equity).momWrites,
      w.max_daily_loss =
        clampAlloc
          (bucketShare
            (portfolioRun (.ok (config, settings)) dayStart equity).result.daily_risk
            (config.portfoliobot.guardrails.per_bot_min_pct_of_daily_risk.getD 10))
          (bucketShare
            (portfolioRun (.ok (config, settings)) dayStart equity).result.daily_risk
            (config.portfoliobot.guardrails.per_bot_max_pct_of_daily_risk.getD 50))
          (bucketShare
            (portfolioRun (.ok (config, settings)) dayStart equity).result.daily_risk
            (config.portfoliobot.buckets.momentum_bucket_pct_of_daily_risk.getD 50) /
            ((config.momentum_bots.filter (fun b => b.enabled.getD false)).length : ℚ)) ∧
      (bucketShare
          (portfolioRun (.ok (config, settings)) dayStart equity).result.daily_risk
          (config.portfoliobot.guardrails.per_bot_min_pct_of_daily_risk.getD 10) ≤
        bucketShare
          (portfolioRun (.ok (config, settings)) dayStart equity).result.daily_risk
          (config.portfoliobot.guardrails.per_bot_max_pct_of_daily_risk.getD 50) →
        bucketShare
          (portfolioRun (.ok (config, settings)) dayStart equity).result.daily_risk
          (config.portfoliobot.guardrails.per_bot_min_pct_of_daily_risk.getD 10) ≤
          w.max_daily_loss ∧
        w.max_daily_loss ≤
          bucketShare
            (portfolioRun (.ok (config, settings)) dayStart equity).result.daily_risk
            (config.portfoliobot.guardrails.per_bot_max_pct_of_daily_risk.getD 50)) := by
  intro w hw
  have hmax : max 1
      (config.momentum_bots.filter (fun b => b.enabled.getD false)).length =
      (config.momentum_bots.filter (fun b => b.enabled.getD false)).length :=
    Nat.max_eq_right hcount
  simp only [portfolioRun, hen, Bool.not_true, Bool.false_eq_true, if_false,
    bucketShare, clampAlloc, hmax] at hw ⊢
  rcases List.mem_map.mp hw with ⟨b, -, hb⟩
  subst hb
  simp only [dollars_from_pct]
  refine ⟨trivial, fun hle => ⟨le_max_left _ _, max_le hle (min_le_left _ _)⟩⟩

/-- C5 (witness): with `daily_risk = 100` (day-start equity 10000, loss pct
1), two enabled momentum workers and the default guardrails 10/50, worker
`m1`'s persisted allocation is the clamped even split and lies in
`[10, 50]`. -/
theorem c5_witness :
    c5ExpectedWrite.max_daily_loss =
      clampAlloc
        (bucketShare
          (portfolioRun (.ok (cfgMom2, settingsPct1)) (some 10000) 10000).result.daily_risk 10)
        (bucketShare
          (portfolioRun (.ok (cfgMom2, settingsPct1)) (some 10000) 10000).result.daily_risk 50)
        (bucketShare
          (portfolioRun (.ok (cfgMom2, settingsPct1)) (some 10000) 10000).result.daily_risk 50 /
          ((cfgMom2.momentum_bots.filter (fun b => b.enabled.getD false)).length : ℚ)) ∧
    (bucketShare
        (portfolioRun (.ok (cfgMom2, settingsPct1)) (some 10000) 10000).result.daily_risk 10 ≤
      bucketShare
        (portfolioRun (.ok (cfgMom2, settingsPct1)) (some 10000) 10000).result.daily_risk 50 →
      bucketShare
        (portfolioRun (.ok (cfgMom2, settingsPct1)) (some 10000) 10000).result.daily_risk 10 ≤
        c5ExpectedWrite.max_daily_loss ∧
      c5ExpectedWrite.max_daily_loss ≤
        bucketShare
          (portfolioRun (.ok (cfgMom2, settingsPct1)) (some 10000) 10000).result.daily_risk 50) :=
  c5_momentum_allocation cfgMom2 settingsPct1 (some 10000) 10000 rfl (by decide)
    c5ExpectedWrite
    (by
      simp only [portfolioRun, cfgMom2, settingsPct1, defaultPortfolioCfg,
        defaultExitbotCfg, emptyBotRisk, dollars_from_pct, c5ExpectedWrite]
      norm_num [List.filter, min_def, max_def])

/-- Arithmetic core of the amended bucket bound: `n` copies of a share
clamped to `[lo, hi]` sum to at most the larger of the bucket and `n` times
the lower guardrail. -/
theorem clamp_sum_bound (n : ℕ) (lo hi bucket : ℚ) (hn : 1 ≤ n) :
    (n : ℚ) * clampAlloc lo hi (bucket / (n : ℚ)) ≤ max bucket ((n : ℚ) * lo) := by
  have hn0 : (0 : ℚ) ≤ (n : ℚ) := Nat.cast_nonneg n
  have hne : (n : ℚ) ≠ 0 := by
    have : n ≠ 0 := by omega
    exact_mod_cast this
  calc (n : ℚ) * clampAlloc lo hi (bucket / (n : ℚ))
      ≤ (n : ℚ) * max lo (bucket / (n : ℚ)) := by
        refine mul_le_mul_of_nonneg_left ?_ hn0
        exact max_le_max (le_refl lo) (min_le_right hi _)
    _ = max ((n : ℚ) * lo) ((n : ℚ) * (bucket / (n : ℚ))) :=
        mul_max_of_nonneg _ _ hn0
    _ = max ((n : ℚ) * lo) bucket := by rw [mul_div_cancel₀ _ hne]
    _ = max bucket ((n : ℚ) * lo) := max_comm _ _

/-- The enabled-filtered momentum writes all carry the same allocation, so
their sum is the enabled count times that allocation. -/
theorem momWrites_sum (l : List MomentumBotCfg) (c : ℚ)
    (mk : MomentumBotCfg → BudgetWrite)
    (hmdl : ∀ b, (mk b).max_daily_loss = c)
    (henb : ∀ b, (mk b).enabled = b.enabled.getD false) :
    (((l.map mk).filter (fun w => w.enabled)).map
        (fun w => w.max_daily_loss)).sum =
      ((l.filter (fun b => b.enabled.getD false)).length : ℚ) * c := by
  rw [List.filter_map]
  have h1 : (fun w : BudgetWrite => w.enabled) ∘ mk =
      fun b => b.enabled.getD false := funext henb
  rw [h1, List.map_map]
  have h2 : (fun w : BudgetWrite => w.max_daily_loss) ∘ mk = fun _ => c :=
    funext hmdl
  rw [h2, List.map_const', List.sum_replicate, nsmul_eq_mul]

/-- C4 (amended): after every successful `PortfolioBot.run`, the options and
crypto workers' persisted `max_daily_loss` equal their buckets' shares of
the daily risk exactly, and the sum of the enabled momentum workers'
persisted `max_daily_loss` is at most the larger of the momentum bucket's
share and (number of enabled momentum workers) × the per-bot minimum — the
sum can exceed the bucket's share when the per-bot minimum clamp binds, so
the claimed bound by the bucket share alone does not hold. -/
theorem c4_bucket_budget_bound (config : BotsConfig) (settings : Settings)
    (dayStart : Option ℚ) (equity : ℚ)
    (hen : config.portfoliobot.enabled.getD true = true) :
    (∀ w : BudgetWrite,
      (portfolioRun (.ok (config, settings)) dayStart equity).optWrite = some w →
      w.max_daily_loss =
        bucketShare
          (portfolioRun (.ok (config, settings)) dayStart equity).result.daily_risk
          (config.portfoliobot.buckets.options_bucket_pct_of_daily_risk.getD 50)) ∧
    (∀ w : BudgetWrite,
      (portfolioRun (.ok (config, settings)) dayStart equity).cryWrite = some w →
      w.max_daily_loss =
        bucketShare
          (portfolioRun (.ok (config, settings)) dayStart equity).result.daily_risk
          (config.portfoliobot.buckets.crypto_bucket_pct_of_daily_risk.getD 25)) ∧
    (1 ≤ (config.momentum_bots.filter (fun b => b.enabled.getD false)).length →
      (((portfolioRun (.ok (config, settings)) dayStart equity).momWrites.filter
          (fun w => w.enabled)).map (fun w => w.max_daily_loss)).sum ≤
        max
          (bucketShare
            (portfolioRun (.ok (config, settings)) dayStart equity).result.daily_risk
            (config.portfoliobot.buckets.momentum_bucket_pct_of_daily_risk.getD 50))
          (((config.momentum_bots.filter (fun b => b.enabled.getD false)).length : ℚ) *
            bucketShare
              (portfolioRun (.ok (config, settings)) dayStart equity).result.daily_risk
              (config.portfoliobot.guardrails.per_bot_min_pct_of_daily_risk.getD 10))) := by
  refine ⟨?_, ?_, ?_⟩
  · intro w hw
    by_cases ho : config.optionsbot.enabled.getD false = true
    · simp only [portfolioRun, hen, Bool.not_true, Bool.false_eq_true, if_false,
        ho, if_true, bucketShare] at hw ⊢
      injection hw with hw
      subst hw
      rfl
    · simp only [portfolioRun, hen, Bool.not_true, Bool.false_eq_true, if_false,
        ho, if_false] at hw
      exact absurd hw (by simp)
  · intro w hw
    by_cases ho : config.cryptobot.enabled.getD false = true
    · simp only [portfolioRun, hen, Bool.not_true, Bool.false_eq_true, if_false,
        ho, if_true, bucketShare] at hw ⊢
      injection hw with hw
      subst hw
      rfl
    · simp only [portfolioRun, hen, Bool.not_true, Bool.false_eq_true, if_false,
        ho, if_false] at hw
      exact absurd hw (by simp)
  · intro hcount
    have hmaxn : max 1
        (config.momentum_bots.filter (fun b => b.enabled.getD false)).length =
        (config.momentum_bots.filter (fun b => b.enabled.getD false)).length :=
      Nat.max_eq_right hcount
    simp only [portfolioRun, hen, Bool.not_true, Bool.false_eq_true, if_false,
      bucketShare, hmaxn]
    exact le_trans
      (le_of_eq (momWrites_sum config.momentum_bots _ _ (fun _ => rfl)
        (fun _ => rfl)))
      (clamp_sum_bound _ _ _ _ hcount)

/-- C4 (counterexample): with `daily_risk = 100`, the default momentum
bucket share `50` and the default per-bot minimum `10`, six enabled
momentum workers each receive the clamped minimum `10`, so the persisted
momentum allocations sum to `60 > 50`: the bucket invariant as claimed
fails when the per-bot minimum clamp binds. -/
theorem c4_counterexample :
    (portfolioRun (.ok (cfgMom6, settingsPct1)) (some 10000) 10000).result.budgets_set
      = true ∧
    bucketShare
      (portfolioRun (.ok (cfgMom6, settingsPct1)) (some 10000) 10000).result.daily_risk
      50 = 50 ∧
    (((portfolioRun (.ok (cfgMom6, settingsPct1)) (some 10000) 10000).momWrites.filter
        (fun w => w.enabled)).map (fun w => w.max_daily_loss)).sum = 60 ∧
    ¬ ((60 : ℚ) ≤ 50) := by
  refine ⟨rfl, ?_, ?_, by norm_num⟩
  · simp only [portfolioRun, cfgMom6, settingsPct1, defaultPortfolioCfg,
      defaultExitbotCfg, emptyBotRisk, bucketShare, dollars_from_pct]
    norm_num
  · simp only [portfolioRun, cfgMom6, settingsPct1, defaultPortfolioCfg,
      defaultExitbotCfg, emptyBotRisk, dollars_from_pct]
    norm_num [List.filter, min_def, max_def]

/-- C4 (witness): the amended bound at `cfgFull` with `daily_risk = 100`:
the options and crypto writes carry their buckets' shares exactly, and the
six enabled momentum workers' allocations sum within
`max(bucket, 6 × per-bot minimum)`. -/
theorem c4_witness :
    c4OptWrite.max_daily_loss =
      bucketShare
        (portfolioRun (.ok (cfgFull, settingsPct1)) (some 10000) 10000).result.daily_risk
        (cfgFull.portfoliobot.buckets.options_bucket_pct_of_daily_risk.getD 50) ∧
    c4CryWrite.max_daily_loss =
      bucketShare
        (portfolioRun (.ok (cfgFull, settingsPct1)) (some 10000) 10000).result.daily_risk
        (cfgFull.portfoliobot.buckets.crypto_bucket_pct_of_daily_risk.getD 25) ∧
    (((portfolioRun (.ok (cfgFull, settingsPct1)) (some 10000) 10000).momWrites.filter
        (fun w => w.enabled)).map (fun w => w.max_daily_loss)).sum ≤
      max
        (bucketShare
          (portfolioRun (.ok (cfgFull, settingsPct1)) (some 10000) 10000).result.daily_risk
          (cfgFull.portfoliobot.buckets.momentum_bucket_pct_of_daily_risk.getD 50))
        (((cfgFull.momentum_bots.filter (fun b => b.enabled.getD false)).length : ℚ) *
          bucketShare
            (portfolioRun (.ok (cfgFull, settingsPct1)) (some 10000) 10000).result.daily_risk
            (cfgFull.portfoliobot.guardrails.per_bot_min_pct_of_daily_risk.getD 10)) :=
  ⟨(c4_bucket_budget_bound cfgFull settingsPct1 (some 10000) 10000 rfl).1
      c4OptWrite
      (by
        simp only [portfolioRun, cfgFull, settingsPct1, defaultPortfolioCfg,
          defaultExitbotCfg, emptyBotRisk, dollars_from_pct, c4OptWrite]
        norm_num),
    (c4_bucket_budget_bound cfgFull settingsPct1 (some 10000) 10000 rfl).2.1
      c4CryWrite
      (by
        simp only [portfolioRun, cfgFull, settingsPct1, defaultPortfolioCfg,
          defaultExitbotCfg, emptyBotRisk, dollars_from_pct, c4CryWrite]
        norm_num),
    (c4_bucket_budget_bound cfgFull settingsPct1 (some 10000) 10000 rfl).2.2
      (by decide)⟩
